import Mathlib

/-!
Shallow embedding of the Virtual Monitor interaction-detection and
calibration engine (`src/VirtualMonitor.cpp`, `src/MouseInteractionHandler.h`).

The C++ code drives a wxWidgets frame with three UI states
(Paused / Detecting / Calibrating), a detection worker thread
(`detectionThreadFn`) cancelled through the `detectionShouldCancel` flag, a
calibration worker thread (`VirtualMonitorCalibrationThread::Entry`) that
fills a `CALIBRATION_ROWS * CALIBRATION_COLS` grid of
physical/virtual coordinate pairs, and plain-text persistence of that grid
(`readCalibrationDataFromFile` / `writeCalibrationDataToFile`).

Modelling conventions:
* machine integers are `Int` (no arithmetic overflows in the modelled code);
  the `float physicalZ` field is carried as `Rat` — it is only ever copied,
  never computed with, in the claims treated here;
* the `ifstream` extraction loop is abstracted by the list of complete
  5-field records the stream yields before extraction first fails
  (`Option` is `none` when the file cannot be opened);
* worker threads are embedded as functions from a scripted schedule
  (poll results, handler verdicts, the iteration at which the cancellation
  flag is first observed `true`) to the trace of externally visible actions.
-/

namespace VirtualMonitor

/-- C++ `#define CALIBRATION_ROWS 2` in VirtualMonitor.cpp. -/
def CALIBRATION_ROWS : Nat := 2

/-- C++ `#define CALIBRATION_COLS 4` in VirtualMonitor.cpp. -/
def CALIBRATION_COLS : Nat := 4

/-- C++ `Coord3D`: physical-space coordinate (x, y integral; z is the sensor
depth, a `float` in C++, carried as `Rat` since the modelled code only
stores and copies it). -/
structure Coord3D where
  x : Int
  y : Int
  z : Rat
deriving DecidableEq, Repr

/-- C++ `Coord2D`: virtual-screen coordinate. -/
structure Coord2D where
  x : Int
  y : Int
deriving DecidableEq, Repr

/-- One complete record of the calibration file: the five whitespace-separated
fields `physicalX physicalY physicalZ virtualX virtualY` that one successful
pass of `calibrationFile >> ... >> virtualY` extracts. -/
structure CalRecord where
  physicalX : Int
  physicalY : Int
  physicalZ : Rat
  virtualX : Int
  virtualY : Int
deriving DecidableEq, Repr

/-- The physical coordinate a record stores into
`calibrationPhysicalCoords[calibrationIndex]`. -/
def CalRecord.phys (r : CalRecord) : Coord3D :=
  ⟨r.physicalX, r.physicalY, r.physicalZ⟩

/-- The virtual coordinate a record stores into
`calibrationVirtualCoords[calibrationIndex]`. -/
def CalRecord.virt (r : CalRecord) : Coord2D :=
  ⟨r.virtualX, r.virtualY⟩

/-- The `while (calibrationFile >> ...)` loop of
`readCalibrationDataFromFile`: record `i` of the stream is written into
grid slot `calibrationIndex = i`, one slot per successfully extracted
record.  `List.set` past the end of the list is a no-op, matching no claim
here (the C++ would index out of bounds beyond `rows*cols` records; all
claims stay within bounds). -/
def readLoop : List CalRecord → Nat → List Coord3D → List Coord2D →
    List Coord3D × List Coord2D
  | [], _, phys, virt => (phys, virt)
  | r :: rs, i, phys, virt =>
      readLoop rs (i + 1) (phys.set i r.phys) (virt.set i r.virt)

/-- C++ `VirtualMonitorFrame::readCalibrationDataFromFile`.  `file = none` models
a path that cannot be opened (`!calibrationFile.is_open()`): the function
returns `-1` before touching either coordinate array.  `file = some recs`
models an opened file whose stream yields exactly `recs` complete records
before extraction fails; the loop copies them slot by slot and the function
returns `0` unconditionally. -/
def readCalibrationDataFromFile (file : Option (List CalRecord))
    (phys : List Coord3D) (virt : List Coord2D) :
    Int × List Coord3D × List Coord2D :=
  match file with
  | none => (-1, phys, virt)
  | some recs => (0, readLoop recs 0 phys virt)

/-- C++ `VirtualMonitorFrame::writeCalibrationDataToFile`, abstracted to the
sequence of records the `for` loop streams out, one line per grid slot
`0 .. rows*cols - 1`.  `canOpen = false` models `!calibrationFile.is_open()`
(returns `-1`, writes nothing). -/
def writeCalibrationDataToFile (canOpen : Bool)
    (phys : List Coord3D) (virt : List Coord2D) :
    Int × List CalRecord :=
  if canOpen then
    (0, (List.range (CALIBRATION_ROWS * CALIBRATION_COLS)).map fun i =>
      let p := phys.getD i ⟨0, 0, 0⟩
      let v := virt.getD i ⟨0, 0⟩
      ⟨p.x, p.y, p.z, v.x, v.y⟩)
  else (-1, [])

/-! ## Detection session (`startDetection` / `stopDetection` / `detectionThreadFn`) -/

/-- Externally visible actions of the detection worker
(`VirtualMonitorFrame::detectionThreadFn`, non-test build). -/
inductive DetAction
  | pollCall        -- `detector->detectInteraction()`
  | handleCall      -- `handler->handleInteraction(interaction)`
  | freeCall        -- `detector->freeInteraction(interaction)`
  | stopCall        -- `detector->stop()`
  | deleteDetector  -- `delete detector`
  | deleteHandler   -- `delete handler`
deriving DecidableEq, Repr

/-- The `while (!this->detectionShouldCancel)` loop body, iterated until the
flag is observed `true`.  `cancelAt` is the index of the first top-of-loop
check that reads the flag as `true` (the flag is only ever set, never
cleared, while the worker runs), so exactly `cancelAt` iterations execute.
`nonNull i` tells whether iteration `i`'s interaction is non-NULL (the
`if (interaction != NULL)` guard around `freeInteraction`). -/
def detectionLoop : Nat → Nat → (Nat → Bool) → List DetAction
  | 0, _, _ => []
  | k + 1, i, nonNull =>
      [DetAction.pollCall, DetAction.handleCall]
        ++ (if nonNull i then [DetAction.freeCall] else [])
        ++ detectionLoop k (i + 1) nonNull

/-- C++ `VirtualMonitorFrame::detectionThreadFn` (non-test build): if
`detector->start() < 0` the worker frees its resources and returns without
entering the loop; otherwise it loops until the cancellation flag is
observed, calls `detector->stop()` once, and only then frees resources. -/
def detectionThreadFn (startRet : Int) (cancelAt : Nat) (nonNull : Nat → Bool) :
    List DetAction :=
  if startRet < 0 then
    [DetAction.deleteDetector, DetAction.deleteHandler]
  else
    detectionLoop cancelAt 0 nonNull
      ++ [DetAction.stopCall, DetAction.deleteDetector, DetAction.deleteHandler]

/-- Caller-visible outcome of `VirtualMonitorFrame::startDetection`. -/
structure StartDetectionOutcome where
  ret : Int                 -- the function's return value
  cancelFlag : Bool         -- `detectionShouldCancel` after the call
  threadSpawned : Bool      -- whether `detectionThread` was started
deriving DecidableEq, Repr

/-- C++ `VirtualMonitorFrame::startDetection`: reads the calibration file
(discarding the result of `readCalibrationDataFromFile`), resets the
cancellation flag, spawns `detectionThreadFn` on a new thread, and returns
`0` — on every path. -/
def startDetection (file : Option (List CalRecord))
    (phys : List Coord3D) (virt : List Coord2D) :
    StartDetectionOutcome × List Coord3D × List Coord2D :=
  let r := readCalibrationDataFromFile file phys virt
  (⟨0, false, true⟩, r.2.1, r.2.2)

/-! ## Calibration worker (`VirtualMonitorCalibrationThread::Entry`) -/

/-- Externally visible events of the calibration worker. -/
inductive CalEvent
  | record (slot : Nat) (phys : Coord3D) (virt : Coord2D)
      -- one grid slot written (both arrays), followed by the UI notification
  | save (phys : List Coord3D) (virt : List Coord2D)
      -- `writeCalibrationDataToFile` on the final grid
  | stopDetector
      -- `detector->stop()`
deriving DecidableEq, Repr

/-- The `while (calibrationIndex < CALIBRATION_ROWS * CALIBRATION_COLS)`
loop of `Entry`.  Each scripted step is one `detectInteraction(true)` poll:
`(complete, loc)` gives `handler->handleInteraction`'s verdict and the
interaction's `physicalLocation`.  On a completed tap the current target's
virtual coordinate (`getCurrentCalibrationPoint`, i.e. `targets i` in
display order) and the physical location are written into slot
`calibrationIndex`, which is then incremented.  Returns the final index, the
two coordinate arrays, and the trace of `record` events. -/
def calibrationLoop (targets : Nat → Coord2D) :
    List (Bool × Coord3D) → Nat → List Coord3D → List Coord2D →
    Nat × List Coord3D × List Coord2D × List CalEvent
  | [], i, phys, virt => (i, phys, virt, [])
  | (complete, loc) :: rest, i, phys, virt =>
      if i < CALIBRATION_ROWS * CALIBRATION_COLS then
        if complete then
          let out := calibrationLoop targets rest (i + 1)
            (phys.set i loc) (virt.set i (targets i))
          (out.1, out.2.1, out.2.2.1, CalEvent.record i loc (targets i) :: out.2.2.2)
        else
          calibrationLoop targets rest i phys virt
      else (i, phys, virt, [])

/-- C++ `VirtualMonitorCalibrationThread::Entry`: aborts before the loop when
`detector->start() < 0`; otherwise runs the loop over the scripted polls and,
once all `rows*cols` slots are filled, writes the calibration file and then
stops the detector.  A script too short to fill the grid leaves the worker
still inside its loop (no save, no stop). -/
def calibrationEntry (startRet : Int) (targets : Nat → Coord2D)
    (steps : List (Bool × Coord3D)) (phys : List Coord3D) (virt : List Coord2D) :
    List Coord3D × List Coord2D × List CalEvent :=
  if startRet < 0 then (phys, virt, [])
  else
    let out := calibrationLoop targets steps 0 phys virt
    if out.1 = CALIBRATION_ROWS * CALIBRATION_COLS then
      (out.2.1, out.2.2.1,
        out.2.2.2 ++ [CalEvent.save out.2.1 out.2.2.1, CalEvent.stopDetector])
    else (out.2.1, out.2.2.1, out.2.2.2)

/-! ## UI frame state machine (`OnDetect` / `OnCalibrate` / `OnCalibrateThreadUpdate`) -/

/-- C++ `enum class VirtualMonitorState`. -/
inductive VMState
  | Paused
  | Detecting
  | Calibrating
deriving DecidableEq, Repr

/-- C++ `#define LABEL_START_DETECTION "Start Detection"`. -/
def LABEL_START_DETECTION : String := "Start Detection"

/-- C++ `#define LABEL_STOP_DETECTION "Stop Detection"`. -/
def LABEL_STOP_DETECTION : String := "Stop Detection"

/-- The `VirtualMonitorFrame` fields the event handlers touch.
`detectionActive` / `calibrationActive` track whether the corresponding
worker thread is running. -/
structure FrameState where
  state : VMState
  detectionActive : Bool
  calibrationActive : Bool
  detectionShouldCancel : Bool
  detectLabel : String
deriving DecidableEq, Repr

/-- The frame right after the constructor: `state = Paused`, no worker
running, detect button labelled "Start Detection". -/
def initialFrame : FrameState :=
  ⟨VMState.Paused, false, false, false, LABEL_START_DETECTION⟩

/-- Calls the event handlers make, in order. -/
inductive UIAction
  | stopDetectionCall    -- `this->stopDetection()` (sets flag, joins thread)
  | startDetectionCall   -- `this->startDetection()` (spawns the worker)
  | startCalibrationCall -- `this->startCalibration()` (spawns the worker)
  | setLabel (l : String)
deriving DecidableEq, Repr

/-- Effect of `VirtualMonitorFrame::stopDetection` on the frame fields:
sets `detectionShouldCancel` and joins the worker (synchronously — the
handler does not continue until the thread has exited). -/
def stopDetectionEffect (s : FrameState) : FrameState :=
  { s with detectionShouldCancel := true, detectionActive := false }

/-- Effect of `VirtualMonitorFrame::startDetection` on the frame fields:
clears the cancellation flag and spawns the detection worker. -/
def startDetectionEffect (s : FrameState) : FrameState :=
  { s with detectionShouldCancel := false, detectionActive := true }

/-- Effect of `VirtualMonitorFrame::startCalibration`: shows the calibration
frame and spawns the calibration worker thread. -/
def startCalibrationEffect (s : FrameState) : FrameState :=
  { s with calibrationActive := true }

/-- C++ `VirtualMonitorFrame::OnDetect`: no-op while Calibrating; stops
detection when Detecting; starts it when Paused; then (on the non-Calibrating
paths) toggles the detect button label. -/
def OnDetect (s : FrameState) : FrameState × List UIAction :=
  match s.state with
  | VMState.Calibrating => (s, [])
  | VMState.Detecting =>
      let s1 := { stopDetectionEffect s with state := VMState.Paused }
      let lbl := if s1.state = VMState.Detecting
        then LABEL_STOP_DETECTION else LABEL_START_DETECTION
      ({ s1 with detectLabel := lbl },
        [UIAction.stopDetectionCall, UIAction.setLabel lbl])
  | VMState.Paused =>
      let s1 := { startDetectionEffect s with state := VMState.Detecting }
      let lbl := if s1.state = VMState.Detecting
        then LABEL_STOP_DETECTION else LABEL_START_DETECTION
      ({ s1 with detectLabel := lbl },
        [UIAction.startDetectionCall, UIAction.setLabel lbl])

/-- C++ `VirtualMonitorFrame::OnCalibrate`: no-op while Calibrating; when
Detecting, stops detection and falls through (the `// continue` fallthrough)
to the Paused case, which enters Calibrating and starts the calibration
session. -/
def OnCalibrate (s : FrameState) : FrameState × List UIAction :=
  match s.state with
  | VMState.Calibrating => (s, [])
  | VMState.Detecting =>
      let s1 := { stopDetectionEffect s with state := VMState.Paused }
      let s2 := startCalibrationEffect { s1 with state := VMState.Calibrating }
      (s2, [UIAction.stopDetectionCall, UIAction.startCalibrationCall])
  | VMState.Paused =>
      let s2 := startCalibrationEffect { s with state := VMState.Calibrating }
      (s2, [UIAction.startCalibrationCall])

/-- C++ `VirtualMonitorFrame::stopCalibration`: closes the calibration frame
(the worker has already finished its loop) and returns to Paused. -/
def stopCalibrationEffect (s : FrameState) : FrameState :=
  { s with state := VMState.Paused, calibrationActive := false }

/-- C++ `VirtualMonitorFrame::OnCalibrateThreadUpdate`: advances the calibration
display for indices below `rows*cols - 1`, and calls `stopCalibration` on
the final index. -/
def OnCalibrateThreadUpdate (s : FrameState) (calibrationIndex : Int) : FrameState :=
  if calibrationIndex < (CALIBRATION_ROWS * CALIBRATION_COLS : Nat) - 1 then s
  else stopCalibrationEffect s

/-- Frame states reachable from the constructor through the event handlers.
`calUpdate` is guarded by `state = Calibrating`: the
`VIRTUALMONITOR_CALIBRATE_THREAD_UPDATE` event is only posted by the
calibration worker, which only runs while the frame is Calibrating (nothing
leaves Calibrating except `stopCalibration` itself). -/
inductive Reachable : FrameState → Prop
  | init : Reachable initialFrame
  | detect {s} : Reachable s → Reachable (OnDetect s).1
  | calibrate {s} : Reachable s → Reachable (OnCalibrate s).1
  | calUpdate {s} (i : Int) : Reachable s → s.state = VMState.Calibrating →
      Reachable (OnCalibrateThreadUpdate s i)

/-! ## Gesture state machine (`InteractionHandler::handleInteraction`) -/

/-- Screen/physical point carried by a contact sample, as far as the gesture
machine is concerned. -/
structure GPoint where
  x : Int
  y : Int
deriving DecidableEq, Repr

/-- One per-poll contact sample: presence flag plus location. -/
inductive Contact
  | absent
  | present (p : GPoint)
deriving DecidableEq, Repr

/-- Gesture events Start / Move / End emitted by the state machine. -/
inductive GEvent
  | gstart (p : GPoint)
  | gmove (p : GPoint)
  | gend (p : GPoint)
deriving DecidableEq, Repr

/-- States of the gesture machine: Idle, or Pressing with the current
contact position. -/
inductive GState
  | Idle
  | Pressing (pos : GPoint)
deriving DecidableEq, Repr

/-- Modelled from the spec: the movement test of the gesture state machine.
`InteractionHandler`'s implementation is not under `src/` (only its
declaration `MouseInteractionHandler.h` and its call sites are), so the
"position changed beyond a configured minimal-movement threshold" rule of
§4.4 is modelled with a Chebyshev distance against a configured
`threshold`. -/
def movedBeyond (threshold : Nat) (p q : GPoint) : Bool :=
  threshold < max (p.x - q.x).natAbs (p.y - q.y).natAbs

/-- Modelled from the spec: one step of `handleInteraction`
(§4.4 transition rules; the implementation is not under `src/`).  Consumes
one contact sample and returns the next state, the emitted event (if any),
and the tap-completion flag — `true` exactly on the Pressing-to-Idle
transition. -/
def handleInteraction (threshold : Nat) :
    GState → Contact → GState × Option GEvent × Bool
  | GState.Idle, Contact.absent => (GState.Idle, none, false)
  | GState.Idle, Contact.present p =>
      (GState.Pressing p, some (GEvent.gstart p), false)
  | GState.Pressing q, Contact.present p =>
      if movedBeyond threshold q p then
        (GState.Pressing p, some (GEvent.gmove p), false)
      else (GState.Pressing q, none, false)
  | GState.Pressing q, Contact.absent =>
      (GState.Idle, some (GEvent.gend q), true)

/-- Modelled from the spec: feeding a scripted contact sequence through the
gesture machine, collecting the emitted events and the per-sample
tap-completion returns of `handleInteraction`. -/
def runGesture (threshold : Nat) : GState → List Contact →
    List GEvent × List Bool
  | _, [] => ([], [])
  | s, c :: cs =>
      let step := handleInteraction threshold s c
      let rest := runGesture threshold step.1 cs
      (step.2.1.toList ++ rest.1, step.2.2 :: rest.2)

/-! ## Helper definitions for stating the theorems -/

/-- Physical locations of the polls on which the handler reported a
completed tap, in poll order (the locations the calibration loop records). -/
def completionLocs (steps : List (Bool × Coord3D)) : List Coord3D :=
  (steps.filter fun s => s.1).map fun s => s.2

/-- Expected `record` trace of the calibration loop: the j-th completion
location goes to slot `i + j`, paired with that slot's display target. -/
def recordTrace (targets : Nat → Coord2D) : Nat → List Coord3D → List CalEvent
  | _, [] => []
  | i, loc :: rest =>
      CalEvent.record i loc (targets i) :: recordTrace targets (i + 1) rest

/-- Expected grid contents of the calibration loop: locations written into
consecutive physical slots from `i`, display targets into the matching
virtual slots. -/
def setSlots (targets : Nat → Coord2D) :
    Nat → List Coord3D → List Coord3D → List Coord2D →
    List Coord3D × List Coord2D
  | _, [], phys, virt => (phys, virt)
  | i, loc :: rest, phys, virt =>
      setSlots targets (i + 1) rest (phys.set i loc) (virt.set i (targets i))

/-- Inductive invariant of the frame: a worker flag is only up in the
matching UI state. -/
def FrameInv (s : FrameState) : Prop :=
  (s.detectionActive = true → s.state = VMState.Detecting) ∧
  (s.calibrationActive = true → s.state = VMState.Calibrating)

/-- A calibration file that opens but holds only 7 parsable records where
`CALIBRATION_ROWS * CALIBRATION_COLS = 8` are expected. -/
def shortFile : List CalRecord := List.replicate 7 ⟨1, 2, 3, 4, 5⟩

/-- An untouched physical-coordinate grid (all slots `Coord3D()` zeroes, as
allocated by the frame constructor). -/
def unsetPhys : List Coord3D :=
  List.replicate (CALIBRATION_ROWS * CALIBRATION_COLS) ⟨0, 0, 0⟩

/-- An untouched virtual-coordinate grid. -/
def unsetVirt : List Coord2D :=
  List.replicate (CALIBRATION_ROWS * CALIBRATION_COLS) ⟨0, 0⟩

/-- A scripted calibration run: one poll with no completed tap, then 8 polls
whose taps complete. -/
def sampleSteps : List (Bool × Coord3D) :=
  (false, ⟨0, 0, 0⟩) :: List.replicate 8 (true, ⟨1, 2, 3⟩)

/-- Display targets for the scripted calibration run. -/
def sampleTargets (i : Nat) : Coord2D := ⟨(i : Int), 0⟩

/-! ## Lemmas about the file-reading loop -/

/-- The reading loop preserves the lengths of both coordinate arrays. -/
theorem readLoop_length (recs : List CalRecord) :
    ∀ i phys virt, (readLoop recs i phys virt).1.length = phys.length ∧
      (readLoop recs i phys virt).2.length = virt.length := by
  induction recs with
  | nil => intro i phys virt; exact ⟨rfl, rfl⟩
  | cons r rs ih =>
      intro i phys virt
      simpa [readLoop, List.length_set] using
        ih (i + 1) (phys.set i r.phys) (virt.set i r.virt)

/-- Slots outside the window `[i, i + recs.length)` are untouched by the
reading loop. -/
theorem readLoop_getElem?_untouched (recs : List CalRecord) :
    ∀ i phys virt j, (j < i ∨ i + recs.length ≤ j) →
      (readLoop recs i phys virt).1[j]? = phys[j]? ∧
      (readLoop recs i phys virt).2[j]? = virt[j]? := by
  induction recs with
  | nil => intro i phys virt j _; exact ⟨rfl, rfl⟩
  | cons r rs ih =>
      intro i phys virt j hj
      have hne : i ≠ j := by
        rcases hj with h | h
        · omega
        · simp only [List.length_cons] at h; omega
      have hj' : j < i + 1 ∨ (i + 1) + rs.length ≤ j := by
        rcases hj with h | h
        · exact Or.inl (by omega)
        · simp only [List.length_cons] at h; exact Or.inr (by omega)
      have := ih (i + 1) (phys.set i r.phys) (virt.set i r.virt) j hj'
      refine ⟨?_, ?_⟩
      · rw [readLoop, this.1, List.getElem?_set_ne hne]
      · rw [readLoop, this.2, List.getElem?_set_ne hne]

/-- Slot `j` inside the window receives exactly record `j - i`. -/
theorem readLoop_getElem?_parsed (recs : List CalRecord) :
    ∀ i phys virt j, i ≤ j → j < i + recs.length →
      j < phys.length → j < virt.length →
      (readLoop recs i phys virt).1[j]? = (recs[j - i]?).map CalRecord.phys ∧
      (readLoop recs i phys virt).2[j]? = (recs[j - i]?).map CalRecord.virt := by
  induction recs with
  | nil =>
      intro i phys virt j hij hlt _ _
      simp only [List.length_nil] at hlt; omega
  | cons r rs ih =>
      intro i phys virt j hij hlt hp hv
      rcases Nat.eq_or_lt_of_le hij with rfl | hgt
      · have h0 : i - i = 0 := Nat.sub_self i
        have hwin : i < i + 1 ∨ (i + 1) + rs.length ≤ i := Or.inl (Nat.lt_succ_self i)
        have hun := readLoop_getElem?_untouched rs (i + 1)
          (phys.set i r.phys) (virt.set i r.virt) i hwin
        refine ⟨?_, ?_⟩
        · rw [readLoop, hun.1, h0, List.getElem?_set_eq_of_lt _ hp,
            List.getElem?_cons_zero]; rfl
        · rw [readLoop, hun.2, h0, List.getElem?_set_eq_of_lt _ hv,
            List.getElem?_cons_zero]; rfl
      · have hij' : i + 1 ≤ j := hgt
        have hlt' : j < (i + 1) + rs.length := by
          simp only [List.length_cons] at hlt; omega
        have hp' : j < (phys.set i r.phys).length := by
          rw [List.length_set]; exact hp
        have hv' : j < (virt.set i r.virt).length := by
          rw [List.length_set]; exact hv
        have := ih (i + 1) (phys.set i r.phys) (virt.set i r.virt) j hij' hlt' hp' hv'
        have hsub : j - i = (j - (i + 1)) + 1 := by omega
        refine ⟨?_, ?_⟩
        · rw [readLoop, this.1, hsub, List.getElem?_cons_succ]
        · rw [readLoop, this.2, hsub, List.getElem?_cons_succ]

/-! ## Lemmas about the detection loop -/

/-- The detection loop polls exactly once per iteration. -/
theorem detectionLoop_count_poll (k : Nat) :
    ∀ i nonNull, (detectionLoop k i nonNull).count DetAction.pollCall = k := by
  induction k with
  | zero => intro i nonNull; rfl
  | succ k ih =>
      intro i nonNull
      by_cases h : nonNull i = true <;>
        simp [detectionLoop, h, List.count_append, List.count_cons, ih]

/-- The detection loop itself never calls `detector->stop()`. -/
theorem detectionLoop_count_stop (k : Nat) :
    ∀ i nonNull, (detectionLoop k i nonNull).count DetAction.stopCall = 0 := by
  induction k with
  | zero => intro i nonNull; rfl
  | succ k ih =>
      intro i nonNull
      by_cases h : nonNull i = true <;>
        simp [detectionLoop, h, List.count_append, List.count_cons, ih]

/-! ## Lemmas about the calibration loop -/

/-- The slot-filling helper preserves array lengths. -/
theorem setSlots_length (targets : Nat → Coord2D) (locs : List Coord3D) :
    ∀ i phys virt, (setSlots targets i locs phys virt).1.length = phys.length ∧
      (setSlots targets i locs phys virt).2.length = virt.length := by
  induction locs with
  | nil => intro i phys virt; exact ⟨rfl, rfl⟩
  | cons loc rest ih =>
      intro i phys virt
      simpa [setSlots, List.length_set] using
        ih (i + 1) (phys.set i loc) (virt.set i (targets i))

/-- Slots outside the window `[i, i + locs.length)` are untouched by the
slot-filling helper. -/
theorem setSlots_getElem?_untouched (targets : Nat → Coord2D) (locs : List Coord3D) :
    ∀ i phys virt j, (j < i ∨ i + locs.length ≤ j) →
      (setSlots targets i locs phys virt).1[j]? = phys[j]? ∧
      (setSlots targets i locs phys virt).2[j]? = virt[j]? := by
  induction locs with
  | nil => intro i phys virt j _; exact ⟨rfl, rfl⟩
  | cons loc rest ih =>
      intro i phys virt j hj
      have hne : i ≠ j := by
        rcases hj with h | h
        · omega
        · simp only [List.length_cons] at h; omega
      have hj' : j < i + 1 ∨ (i + 1) + rest.length ≤ j := by
        rcases hj with h | h
        · exact Or.inl (by omega)
        · simp only [List.length_cons] at h; exact Or.inr (by omega)
      have := ih (i + 1) (phys.set i loc) (virt.set i (targets i)) j hj'
      refine ⟨?_, ?_⟩
      · rw [setSlots, this.1, List.getElem?_set_ne hne]
      · rw [setSlots, this.2, List.getElem?_set_ne hne]

/-- Slot `j` in the window receives location `j - i` and target `j`. -/
theorem setSlots_getElem? (targets : Nat → Coord2D) (locs : List Coord3D) :
    ∀ i phys virt j, i ≤ j → j < i + locs.length →
      j < phys.length → j < virt.length →
      (setSlots targets i locs phys virt).1[j]? = locs[j - i]? ∧
      (setSlots targets i locs phys virt).2[j]? = some (targets j) := by
  induction locs with
  | nil =>
      intro i phys virt j hij hlt _ _
      simp only [List.length_nil] at hlt; omega
  | cons loc rest ih =>
      intro i phys virt j hij hlt hp hv
      rcases Nat.eq_or_lt_of_le hij with rfl | hgt
      · have h0 : i - i = 0 := Nat.sub_self i
        have hwin : i < i + 1 ∨ (i + 1) + rest.length ≤ i := Or.inl (Nat.lt_succ_self i)
        have hun := setSlots_getElem?_untouched targets rest (i + 1)
          (phys.set i loc) (virt.set i (targets i)) i hwin
        refine ⟨?_, ?_⟩
        · rw [setSlots, hun.1, h0, List.getElem?_set_eq_of_lt _ hp,
            List.getElem?_cons_zero]
        · rw [setSlots, hun.2, List.getElem?_set_eq_of_lt _ hv]
      · have hij' : i + 1 ≤ j := hgt
        have hlt' : j < (i + 1) + rest.length := by
          simp only [List.length_cons] at hlt; omega
        have hp' : j < (phys.set i loc).length := by
          rw [List.length_set]; exact hp
        have hv' : j < (virt.set i (targets i)).length := by
          rw [List.length_set]; exact hv
        have := ih (i + 1) (phys.set i loc) (virt.set i (targets i)) j hij' hlt' hp' hv'
        have hsub : j - i = (j - (i + 1)) + 1 := by omega
        refine ⟨?_, ?_⟩
        · rw [setSlots, this.1, hsub, List.getElem?_cons_succ]
        · rw [setSlots, this.2]

/-- Characterization of the calibration loop on a schedule with enough tap
completions: it reaches index `rows*cols`, the grids are `setSlots` of the
completion locations, and the trace is `recordTrace` of them. -/
theorem calibrationLoop_char (targets : Nat → Coord2D) :
    ∀ (steps : List (Bool × Coord3D)) (i : Nat) (phys : List Coord3D)
      (virt : List Coord2D), i ≤ CALIBRATION_ROWS * CALIBRATION_COLS →
      CALIBRATION_ROWS * CALIBRATION_COLS - i ≤ (completionLocs steps).length →
      calibrationLoop targets steps i phys virt =
        (CALIBRATION_ROWS * CALIBRATION_COLS,
         (setSlots targets i
           ((completionLocs steps).take (CALIBRATION_ROWS * CALIBRATION_COLS - i))
           phys virt).1,
         (setSlots targets i
           ((completionLocs steps).take (CALIBRATION_ROWS * CALIBRATION_COLS - i))
           phys virt).2,
         recordTrace targets i
           ((completionLocs steps).take (CALIBRATION_ROWS * CALIBRATION_COLS - i))) := by
  intro steps
  induction steps with
  | nil =>
      intro i phys virt hile hlen
      have : CALIBRATION_ROWS * CALIBRATION_COLS = i := by
        simp only [completionLocs, List.filter_nil, List.map_nil,
          List.length_nil] at hlen
        omega
      subst this
      simp [calibrationLoop, Nat.sub_self, List.take_zero, setSlots, recordTrace]
  | cons step rest ih =>
      intro i phys virt hile hlen
      obtain ⟨complete, loc⟩ := step
      rcases Nat.eq_or_lt_of_le hile with rfl | hlt
      · simp only [Nat.sub_self, List.take_zero, setSlots, recordTrace]
        rw [calibrationLoop]
        simp
      · by_cases hc : complete = true
        · subst hc
          have hcomps : completionLocs ((true, loc) :: rest) =
              loc :: completionLocs rest := by
            simp [completionLocs]
          have hlen' : CALIBRATION_ROWS * CALIBRATION_COLS - (i + 1) ≤
              (completionLocs rest).length := by
            rw [hcomps] at hlen
            simp only [List.length_cons] at hlen
            omega
          have htake : (completionLocs ((true, loc) :: rest)).take
              (CALIBRATION_ROWS * CALIBRATION_COLS - i) =
              loc :: (completionLocs rest).take
                (CALIBRATION_ROWS * CALIBRATION_COLS - (i + 1)) := by
            rw [hcomps]
            have : CALIBRATION_ROWS * CALIBRATION_COLS - i =
                (CALIBRATION_ROWS * CALIBRATION_COLS - (i + 1)) + 1 := by omega
            rw [this, List.take_succ_cons]
          have hih := ih (i + 1) (phys.set i loc) (virt.set i (targets i))
            hlt hlen'
          rw [calibrationLoop, if_pos hlt, if_pos rfl, hih, htake]
          simp [setSlots, recordTrace]
        · have hc' : complete = false := by
            cases complete
            · rfl
            · exact absurd rfl hc
          subst hc'
          have hcomps : completionLocs ((false, loc) :: rest) =
              completionLocs rest := by
            simp [completionLocs]
          have hlen' : CALIBRATION_ROWS * CALIBRATION_COLS - i ≤
              (completionLocs rest).length := by rw [hcomps] at hlen; exact hlen
          rw [calibrationLoop, if_pos hlt, if_neg (by simp), hcomps,
            ih i phys virt hile hlen']

/-! ## Lemmas about the UI state machine -/

/-- One `OnDetect` event preserves the worker/state invariant. -/
theorem frameInv_onDetect (s : FrameState) (h : FrameInv s) :
    FrameInv (OnDetect s).1 := by
  obtain ⟨st, da, ca, dc, dl⟩ := s
  obtain ⟨h1, h2⟩ := h
  cases st <;>
    simp_all [OnDetect, FrameInv, stopDetectionEffect, startDetectionEffect]

/-- One `OnCalibrate` event preserves the worker/state invariant. -/
theorem frameInv_onCalibrate (s : FrameState) (h : FrameInv s) :
    FrameInv (OnCalibrate s).1 := by
  obtain ⟨st, da, ca, dc, dl⟩ := s
  obtain ⟨h1, h2⟩ := h
  cases st <;>
    simp_all [OnCalibrate, FrameInv, stopDetectionEffect, startCalibrationEffect]

/-- One calibration-thread update event, delivered while Calibrating,
preserves the worker/state invariant. -/
theorem frameInv_calUpdate (s : FrameState) (i : Int)
    (hst : s.state = VMState.Calibrating) (h : FrameInv s) :
    FrameInv (OnCalibrateThreadUpdate s i) := by
  obtain ⟨st, da, ca, dc, dl⟩ := s
  obtain ⟨h1, h2⟩ := h
  unfold OnCalibrateThreadUpdate
  split
  · exact ⟨h1, h2⟩
  · simp_all [FrameInv, stopCalibrationEffect]

/-- Every reachable frame state satisfies the worker/state invariant. -/
theorem reachable_frameInv : ∀ s, Reachable s → FrameInv s := by
  intro s h
  induction h with
  | init =>
      exact ⟨fun h => by simp [initialFrame] at h,
             fun h => by simp [initialFrame] at h⟩
  | detect _ ih => exact frameInv_onDetect _ ih
  | calibrate _ ih => exact frameInv_onCalibrate _ ih
  | calUpdate i _ hst ih => exact frameInv_calUpdate _ i hst ih

/-! ## Claim theorems -/

/-- C9: for every calibration file path that cannot be opened,
`readCalibrationDataFromFile` returns `-1` and leaves every slot of both
the physical and the virtual calibration coordinate arrays unchanged — the
not-found path is atomic. -/
theorem C9_load_not_found_atomic (phys : List Coord3D) (virt : List Coord2D) :
    readCalibrationDataFromFile none phys virt = (-1, phys, virt) := rfl

/-- C1 counterexample: a calibration file that opens with only 7 parsable
records (8 expected) makes `readCalibrationDataFromFile` return `0`
(success, not a ParseError-style failure) while mutating slot 0 but not
slot 7 — a partially filled grid. -/
theorem C1_counterexample :
    (readCalibrationDataFromFile (some shortFile) unsetPhys unsetVirt).1 = 0 ∧
    (readCalibrationDataFromFile (some shortFile) unsetPhys unsetVirt).2.1[0]? ≠
      unsetPhys[0]? ∧
    (readCalibrationDataFromFile (some shortFile) unsetPhys unsetVirt).2.1[7]? =
      unsetPhys[7]? := by
  refine ⟨rfl, ?_, rfl⟩
  intro h
  simp [shortFile, unsetPhys, readCalibrationDataFromFile, readLoop,
    CALIBRATION_ROWS, CALIBRATION_COLS, List.replicate, CalRecord.phys] at h

/-- C1 (amended): `readCalibrationDataFromFile` returns `0` for every file
that opens, however few records it contains; record `j` is copied into grid
slot `j` for each parsed record, and every slot from index
`recs.length` on keeps its prior value.  A short file therefore yields
success with a partially updated grid, not a ParseError-style failure. -/
theorem C1_short_file_partial_load (recs : List CalRecord)
    (phys : List Coord3D) (virt : List Coord2D) :
    (readCalibrationDataFromFile (some recs) phys virt).1 = 0 ∧
    (∀ j, recs.length ≤ j →
      (readCalibrationDataFromFile (some recs) phys virt).2.1[j]? = phys[j]? ∧
      (readCalibrationDataFromFile (some recs) phys virt).2.2[j]? = virt[j]?) ∧
    (∀ j, j < recs.length → j < phys.length → j < virt.length →
      (readCalibrationDataFromFile (some recs) phys virt).2.1[j]? =
        (recs[j]?).map CalRecord.phys ∧
      (readCalibrationDataFromFile (some recs) phys virt).2.2[j]? =
        (recs[j]?).map CalRecord.virt) := by
  refine ⟨rfl, ?_, ?_⟩
  · intro j hj
    exact readLoop_getElem?_untouched recs 0 phys virt j (Or.inr (by omega))
  · intro j hj hp hv
    have := readLoop_getElem?_parsed recs 0 phys virt j (Nat.zero_le j)
      (by omega) hp hv
    simpa using this

/-- Witness for C1's amended theorem at the 7-record file: success result,
slot 7 untouched, slot 0 holding record 0. -/
theorem C1_short_file_partial_load_witness :
    (readCalibrationDataFromFile (some shortFile) unsetPhys unsetVirt).1 = 0 ∧
    (readCalibrationDataFromFile (some shortFile) unsetPhys unsetVirt).2.1[7]? =
      unsetPhys[7]? ∧
    (readCalibrationDataFromFile (some shortFile) unsetPhys unsetVirt).2.1[0]? =
      (shortFile[0]?).map CalRecord.phys :=
  ⟨(C1_short_file_partial_load shortFile unsetPhys unsetVirt).1,
   ((C1_short_file_partial_load shortFile unsetPhys unsetVirt).2.1 7
     (by decide)).1,
   ((C1_short_file_partial_load shortFile unsetPhys unsetVirt).2.2 0
     (by decide) (by decide) (by decide)).1⟩

/-- C2 counterexample: with a calibration file that cannot be loaded
(`readCalibrationDataFromFile` returns `-1`), `startDetection` still
returns `0` (no error) and still spawns the detection thread — it does not
fail fast. -/
theorem C2_counterexample :
    (readCalibrationDataFromFile none unsetPhys unsetVirt).1 = -1 ∧
    (startDetection none unsetPhys unsetVirt).1.ret = 0 ∧
    (startDetection none unsetPhys unsetVirt).1.threadSpawned = true :=
  ⟨rfl, rfl, rfl⟩

/-- C2 (amended): `startDetection` never fails fast — it discards the
result of the calibration load, resets the cancellation flag, spawns the
detection thread and returns `0` on every input; a detector open failure is
handled on the worker thread, which exits before any poll iteration runs
(and without calling `stop()`), but no error reaches the caller. -/
theorem C2_start_never_fails_fast :
    (∀ file phys virt,
      (startDetection file phys virt).1 = ⟨0, false, true⟩) ∧
    (∀ (startRet : Int) (cancelAt : Nat) (nonNull : Nat → Bool),
      startRet < 0 →
      (detectionThreadFn startRet cancelAt nonNull).count DetAction.pollCall = 0 ∧
      (detectionThreadFn startRet cancelAt nonNull).count DetAction.stopCall = 0) := by
  refine ⟨fun file phys virt => rfl, fun startRet cancelAt nonNull h => ?_⟩
  rw [detectionThreadFn, if_pos h]
  exact ⟨rfl, rfl⟩

/-- Witness for C2's amended theorem: concrete failing load and failing
detector start. -/
theorem C2_start_never_fails_fast_witness :
    (startDetection none unsetPhys unsetVirt).1 = ⟨0, false, true⟩ ∧
    (detectionThreadFn (-1) 0 (fun _ => false)).count DetAction.pollCall = 0 :=
  ⟨C2_start_never_fails_fast.1 none unsetPhys unsetVirt,
   (C2_start_never_fails_fast.2 (-1) 0 (fun _ => false) (by decide)).1⟩

/-- C5: for a detection loop whose detector started, when the cancellation
flag is first observed `true` at top-of-loop check `cancelAt` the worker
exits right there: the trace is the `cancelAt` loop iterations followed by
exactly one `detector->stop()` and only then the resource releases.  The
poll count equals `cancelAt`, so no poll follows the observing check —
since consecutive checks are separated by a single poll, at most one poll
can run after the flag is set. -/
theorem C5_cancellation_bounded (startRet : Int) (cancelAt : Nat)
    (nonNull : Nat → Bool) (h : ¬ startRet < 0) :
    detectionThreadFn startRet cancelAt nonNull =
      detectionLoop cancelAt 0 nonNull ++
        [DetAction.stopCall, DetAction.deleteDetector, DetAction.deleteHandler] ∧
    (detectionThreadFn startRet cancelAt nonNull).count DetAction.pollCall =
      cancelAt ∧
    (detectionThreadFn startRet cancelAt nonNull).count DetAction.stopCall = 1 := by
  have htr : detectionThreadFn startRet cancelAt nonNull =
      detectionLoop cancelAt 0 nonNull ++
        [DetAction.stopCall, DetAction.deleteDetector, DetAction.deleteHandler] := by
    rw [detectionThreadFn, if_neg h]
  refine ⟨htr, ?_, ?_⟩
  · rw [htr, List.count_append, detectionLoop_count_poll]
    rfl
  · rw [htr, List.count_append, detectionLoop_count_stop]
    rfl

/-- Witness for C5 at a concrete run: detector opens (`startRet = 0`), the
flag is observed at the second check (`cancelAt = 1`), every interaction
non-NULL. -/
theorem C5_cancellation_bounded_witness :
    detectionThreadFn 0 1 (fun _ => true) =
      detectionLoop 1 0 (fun _ => true) ++
        [DetAction.stopCall, DetAction.deleteDetector, DetAction.deleteHandler] ∧
    (detectionThreadFn 0 1 (fun _ => true)).count DetAction.pollCall = 1 ∧
    (detectionThreadFn 0 1 (fun _ => true)).count DetAction.stopCall = 1 :=
  C5_cancellation_bounded 0 1 (fun _ => true) (by decide)

/-- C7: a calibration session whose detector fails to start aborts
immediately — both coordinate arrays are returned unchanged and the trace
is empty: no slot recorded, no save, no loop iteration, no stop. -/
theorem C7_calibration_start_failure_aborts (startRet : Int)
    (targets : Nat → Coord2D) (steps : List (Bool × Coord3D))
    (phys : List Coord3D) (virt : List Coord2D) (h : startRet < 0) :
    calibrationEntry startRet targets steps phys virt = (phys, virt, []) := by
  rw [calibrationEntry, if_pos h]

/-- Witness for C7: concrete failed detector start (`startRet = -1`). -/
theorem C7_calibration_start_failure_aborts_witness :
    calibrationEntry (-1) sampleTargets sampleSteps unsetPhys unsetVirt =
      (unsetPhys, unsetVirt, []) :=
  C7_calibration_start_failure_aborts (-1) sampleTargets sampleSteps
    unsetPhys unsetVirt (by decide)

/-- C3: a calibration session whose detector starts and whose handler
reports at least `rows*cols = 8` tap completions records the `j`-th
completion's physical location into slot `j` paired with display target
`j` — each slot written exactly once, in target-display order (the trace is
`recordTrace` over slots `0..7`) — and then performs exactly one save of
the populated grid followed by exactly one `detector->stop()`. -/
theorem C3_calibration_fills_grid_then_saves (startRet : Int)
    (targets : Nat → Coord2D) (steps : List (Bool × Coord3D))
    (phys : List Coord3D) (virt : List Coord2D)
    (hstart : ¬ startRet < 0)
    (hphys : phys.length = CALIBRATION_ROWS * CALIBRATION_COLS)
    (hvirt : virt.length = CALIBRATION_ROWS * CALIBRATION_COLS)
    (hcomp : CALIBRATION_ROWS * CALIBRATION_COLS ≤ (completionLocs steps).length) :
    (calibrationEntry startRet targets steps phys virt).2.2 =
      recordTrace targets 0
        ((completionLocs steps).take (CALIBRATION_ROWS * CALIBRATION_COLS)) ++
      [CalEvent.save (calibrationEntry startRet targets steps phys virt).1
         (calibrationEntry startRet targets steps phys virt).2.1,
       CalEvent.stopDetector] ∧
    (∀ j, j < CALIBRATION_ROWS * CALIBRATION_COLS →
      (calibrationEntry startRet targets steps phys virt).1[j]? =
        (completionLocs steps)[j]? ∧
      (calibrationEntry startRet targets steps phys virt).2.1[j]? =
        some (targets j)) := by
  have hchar := calibrationLoop_char targets steps 0 phys virt
    (Nat.zero_le _) (by simpa using hcomp)
  have hentry : calibrationEntry startRet targets steps phys virt =
      ((setSlots targets 0
         ((completionLocs steps).take (CALIBRATION_ROWS * CALIBRATION_COLS))
         phys virt).1,
       (setSlots targets 0
         ((completionLocs steps).take (CALIBRATION_ROWS * CALIBRATION_COLS))
         phys virt).2,
       recordTrace targets 0
         ((completionLocs steps).take (CALIBRATION_ROWS * CALIBRATION_COLS)) ++
       [CalEvent.save
          (setSlots targets 0
            ((completionLocs steps).take (CALIBRATION_ROWS * CALIBRATION_COLS))
            phys virt).1
          (setSlots targets 0
            ((completionLocs steps).take (CALIBRATION_ROWS * CALIBRATION_COLS))
            phys virt).2,
        CalEvent.stopDetector]) := by
    rw [calibrationEntry, if_neg hstart, hchar]
    simp
  refine ⟨by rw [hentry], ?_⟩
  intro j hj
  have htlen : j < 0 + ((completionLocs steps).take
      (CALIBRATION_ROWS * CALIBRATION_COLS)).length := by
    rw [List.length_take]
    omega
  have hset := setSlots_getElem? targets
    ((completionLocs steps).take (CALIBRATION_ROWS * CALIBRATION_COLS))
    0 phys virt j (Nat.zero_le j) htlen (by omega) (by omega)
  rw [hentry]
  refine ⟨?_, ?_⟩
  · have := hset.1
    rw [List.getElem?_take_of_lt (by omega)] at this
    simpa using this
  · simpa using hset.2

/-- Witness for C3: the scripted run `sampleSteps` (one incomplete poll
then 8 completed taps) with targets `sampleTargets`, checked at slot 0. -/
theorem C3_calibration_fills_grid_then_saves_witness :
    (calibrationEntry 0 sampleTargets sampleSteps unsetPhys unsetVirt).2.2 =
      recordTrace sampleTargets 0
        ((completionLocs sampleSteps).take (CALIBRATION_ROWS * CALIBRATION_COLS)) ++
      [CalEvent.save (calibrationEntry 0 sampleTargets sampleSteps unsetPhys unsetVirt).1
         (calibrationEntry 0 sampleTargets sampleSteps unsetPhys unsetVirt).2.1,
       CalEvent.stopDetector] ∧
    (calibrationEntry 0 sampleTargets sampleSteps unsetPhys unsetVirt).1[0]? =
      (completionLocs sampleSteps)[0]? ∧
    (calibrationEntry 0 sampleTargets sampleSteps unsetPhys unsetVirt).2.1[0]? =
      some (sampleTargets 0) :=
  ⟨(C3_calibration_fills_grid_then_saves 0 sampleTargets sampleSteps
      unsetPhys unsetVirt (by decide) (by decide) (by decide) (by decide)).1,
   ((C3_calibration_fills_grid_then_saves 0 sampleTargets sampleSteps
      unsetPhys unsetVirt (by decide) (by decide) (by decide) (by decide)).2 0
      (by decide)).1,
   ((C3_calibration_fills_grid_then_saves 0 sampleTargets sampleSteps
      unsetPhys unsetVirt (by decide) (by decide) (by decide) (by decide)).2 0
      (by decide)).2⟩

/-- C6: in every reachable UI state at most one of detection and
calibration is active, and a Calibrate request received while Detecting
first stops detection — `stopDetection` (which joins the worker
synchronously) is sequenced strictly before `startCalibration` in the
handler's call list — and only then enters Calibrating with the
calibration session started. -/
theorem C6_exclusive_sessions_and_stop_before_calibrate :
    (∀ s, Reachable s →
      ¬(s.detectionActive = true ∧ s.calibrationActive = true)) ∧
    (∀ s, s.state = VMState.Detecting →
      (OnCalibrate s).2 =
        [UIAction.stopDetectionCall, UIAction.startCalibrationCall] ∧
      (OnCalibrate s).1.state = VMState.Calibrating ∧
      (OnCalibrate s).1.detectionActive = false ∧
      (OnCalibrate s).1.calibrationActive = true) := by
  refine ⟨?_, ?_⟩
  · rintro s hr ⟨hd, hc⟩
    have hi := reachable_frameInv s hr
    have h1 := hi.1 hd
    have h2 := hi.2 hc
    rw [h1] at h2
    exact VMState.noConfusion h2
  · intro s hst
    obtain ⟨st, da, ca, dc, dl⟩ := s
    cases st with
    | Paused => exact VMState.noConfusion hst
    | Detecting =>
        exact ⟨rfl, rfl, rfl, rfl⟩
    | Calibrating => exact VMState.noConfusion hst

/-- Witness for C6: the initial frame is reachable and exclusive, and a
concrete Detecting frame handled by `OnCalibrate` stops detection before
starting calibration. -/
theorem C6_exclusive_sessions_and_stop_before_calibrate_witness :
    ¬(initialFrame.detectionActive = true ∧
        initialFrame.calibrationActive = true) ∧
    (OnCalibrate
      ⟨VMState.Detecting, true, false, false, LABEL_STOP_DETECTION⟩).2 =
      [UIAction.stopDetectionCall, UIAction.startCalibrationCall] ∧
    (OnCalibrate
      ⟨VMState.Detecting, true, false, false, LABEL_STOP_DETECTION⟩).1.state =
      VMState.Calibrating :=
  ⟨C6_exclusive_sessions_and_stop_before_calibrate.1 initialFrame Reachable.init,
   (C6_exclusive_sessions_and_stop_before_calibrate.2
     ⟨VMState.Detecting, true, false, false, LABEL_STOP_DETECTION⟩ rfl).1,
   (C6_exclusive_sessions_and_stop_before_calibrate.2
     ⟨VMState.Detecting, true, false, false, LABEL_STOP_DETECTION⟩ rfl).2.1⟩

/-- C10: an `OnDetect` event received while the state is Calibrating is a
complete no-op — the handler returns before making any call, so the state
stays Calibrating, no detection thread is started or stopped, the
cancellation flag is untouched and the detect button's label is
unchanged (the whole frame state is returned identically, with an empty
call list). -/
theorem C10_detect_noop_while_calibrating (s : FrameState)
    (h : s.state = VMState.Calibrating) :
    OnDetect s = (s, []) := by
  obtain ⟨st, da, ca, dc, dl⟩ := s
  cases st with
  | Paused => exact VMState.noConfusion h
  | Detecting => exact VMState.noConfusion h
  | Calibrating => rfl

/-- Witness for C10 at a concrete Calibrating frame. -/
theorem C10_detect_noop_while_calibrating_witness :
    OnDetect ⟨VMState.Calibrating, false, true, false, LABEL_START_DETECTION⟩ =
      (⟨VMState.Calibrating, false, true, false, LABEL_START_DETECTION⟩, []) :=
  C10_detect_noop_while_calibrating
    ⟨VMState.Calibrating, false, true, false, LABEL_START_DETECTION⟩ rfl

/-- C8 (state machine modelled from the spec, §4.4): from Idle, the
scripted contact sequence `[absent, present p1, present p1, present p2,
absent]` — with `p2` beyond the movement threshold from `p1` — yields
exactly the events `[Start p1, Move p2, End p2]`, and `handleInteraction`
reports tap completion exactly once, on the final absent sample, returning
`false` on every other sample. -/
theorem C8_scripted_tap_sequence (threshold : Nat) (p1 p2 : GPoint)
    (h : movedBeyond threshold p1 p2 = true) :
    runGesture threshold GState.Idle
      [Contact.absent, Contact.present p1, Contact.present p1,
       Contact.present p2, Contact.absent] =
    ([GEvent.gstart p1, GEvent.gmove p2, GEvent.gend p2],
     [false, false, false, false, true]) := by
  have hself : movedBeyond threshold p1 p1 = false := by
    simp [movedBeyond]
  simp [runGesture, handleInteraction, hself, h]

/-- Witness for C8 at concrete points and threshold. -/
theorem C8_scripted_tap_sequence_witness :
    movedBeyond 1 ⟨0, 0⟩ ⟨5, 5⟩ = true ∧
    runGesture 1 GState.Idle
      [Contact.absent, Contact.present ⟨0, 0⟩, Contact.present ⟨0, 0⟩,
       Contact.present ⟨5, 5⟩, Contact.absent] =
    ([GEvent.gstart ⟨0, 0⟩, GEvent.gmove ⟨5, 5⟩, GEvent.gend ⟨5, 5⟩],
     [false, false, false, false, true]) :=
  ⟨by decide, C8_scripted_tap_sequence 1 ⟨0, 0⟩ ⟨5, 5⟩ (by decide)⟩

end VirtualMonitor
